import Mathlib

/-!
# Spark!Bytes event board — shallow embedding and verification

This file embeds the event/RSVP data-synchronization flow of the campus
food-surplus event board: the data-access layer (`src/lib/eventService.ts`),
the dashboard view-state controller (the `Dashboard` component: state,
`transformEventRecord`, `handleToggleRsvp`, the realtime `eventsNotification`
handlers and `fetchUserAndEvents`), and the event-creation form validation
(`AddEventModal`: `validateForm` / `handleSubmit`).

The remote table store (an external backend-as-a-service, consumed but not
implemented by the repository) is modelled as explicit state: lists of event
rows, attendance records and profile rows, with the uniqueness constraint on
the (event_id, user_id) attendance pair that the repository's error handling
relies on (constraint-violation code 23505).  Asynchronous calls become pure
state-passing functions; thrown `Error(message)` values become
`Except String` with the exact message strings the controller dispatches on.
-/

namespace SparkBytes

/-! ## JS numeric values

Coordinates flow through `Number(...)` conversion and array destructuring, so
a coordinate component can be an ordinary number, `NaN` (malformed string) or
`undefined` (destructuring a too-short array).  The application performs no
arithmetic on coordinates — they are parsed from decimal literals and handed
to the map renderer — so a numeric value is modelled exactly as the decimal
literal it came from: a mantissa `m : ℤ` and a decimal exponent `e : ℕ`
denoting `m / 10^e`. -/

inductive JSNum where
  | num (m : ℤ) (e : ℕ)
  | nan
  | undef
deriving DecidableEq, Repr

/-- The rational value denoted by a decimal literal (`nan`/`undef` denote no
number; they map to `0` here, which nothing below relies on). -/
def JSNum.toRat : JSNum → ℚ
  | .num m e => (m : ℚ) / 10 ^ e
  | .nan => 0
  | .undef => 0

/-- Numeric value of a list of decimal digit characters. -/
def digitsVal (l : List Char) : ℕ :=
  l.foldl (fun a c => 10 * a + (c.toNat - 48)) 0

/-- Parse an unsigned decimal literal (`"42"`, `"42.35"`, `".5"`, `"5."`) to
its mantissa/exponent pair.  A second dot or any non-digit character fails. -/
def parseUnsigned (l : List Char) : Option (ℤ × ℕ) :=
  let ipart := l.takeWhile (fun c => c ≠ '.')
  match l.dropWhile (fun c => c ≠ '.') with
  | [] =>
      if ipart ≠ [] ∧ ipart.all Char.isDigit then some ((digitsVal ipart : ℤ), 0) else none
  | '.' :: fpart =>
      if (ipart ≠ [] ∨ fpart ≠ []) ∧ ipart.all Char.isDigit ∧ fpart.all Char.isDigit then
        some (((digitsVal ipart * 10 ^ fpart.length + digitsVal fpart : ℕ) : ℤ), fpart.length)
      else none
  | _ => none

/-- Parse an optionally signed decimal literal. -/
def parseSigned : List Char → Option (ℤ × ℕ)
  | '-' :: rest => (parseUnsigned rest).map (fun p => (-p.1, p.2))
  | '+' :: rest => parseUnsigned rest
  | l => parseUnsigned l

/-- Leading- and trailing-whitespace trim on a character list (the string
functions of the host language, restated structurally). -/
def trimChars (l : List Char) : List Char :=
  ((l.dropWhile Char.isWhitespace).reverse.dropWhile Char.isWhitespace).reverse

/-- Models the JS `Number(s)` conversion on the decimal-literal strings the
application uses for coordinates: surrounding whitespace is trimmed, the empty
(or all-whitespace) string converts to `0`, a signed decimal literal converts
to its value, and anything else converts to `NaN`.  (Exponent, hexadecimal and
`Infinity` forms never occur in this data flow and are out of scope.) -/
def jsNumberChars (l : List Char) : JSNum :=
  let t := trimChars l
  if t = [] then .num 0 0
  else
    match parseSigned t with
    | some p => .num p.1 p.2
    | none => .nan

/-- `Number(s)` on a string. -/
def jsNumber (s : String) : JSNum :=
  jsNumberChars s.data

/-- `s.split(sep)` for a single-character separator, as in
`coordString.split(',')`: always returns at least one (possibly empty)
piece. -/
def splitOnChar (sep : Char) : List Char → List (List Char)
  | [] => [[]]
  | c :: rest =>
      match splitOnChar sep rest with
      | [] => [[c]]
      | h :: t => if c = sep then [] :: h :: t else (c :: h) :: t

/-- The fixed default campus coordinate `[-71.1097, 42.3505]` (BU). -/
def buCoords : JSNum × JSNum :=
  (.num (-711097) 4, .num 423505 4)

/-- `s.replace(/[()]/g, '')`: drop every parenthesis character. -/
def stripParens (l : List Char) : List Char :=
  l.filter (fun c => c ≠ '(' ∧ c ≠ ')')

/-- The coordinate-parsing step shared by `transformEvents`
(`src/lib/eventService.ts`) and `transformEventRecord` (dashboard page):

```js
let coords = [-71.1097, 42.3505];
if (record.location_coordinates) {
    const coordString = record.location_coordinates.replace(/[()]/g, '');
    const [lng, lat] = coordString.split(',').map(Number);
    coords = [lng, lat];
}
```

A `null`/absent value and the empty string are falsy, so they keep the
default.  Otherwise the string is stripped of parentheses, split on commas,
and the first two pieces go through `Number`; a missing second piece
destructures to `undefined`. -/
def parseCoords (locationCoordinates : Option String) : JSNum × JSNum :=
  match locationCoordinates with
  | none => buCoords
  | some s =>
      if s = "" then buCoords
      else
        let parts := splitOnChar ',' (stripParens s.data)
        let lng := match parts.head? with
          | some p => jsNumberChars p
          | none => .undef
        let lat := match parts.get? 1 with
          | some p => jsNumberChars p
          | none => .undef
        (lng, lat)

example : jsNumber "42.35" = .num 4235 2 := by decide
example : jsNumber " -71.05" = .num (-7105) 2 := by decide
example : jsNumber "abc" = .nan := by decide
example : jsNumber "" = .num 0 0 := by decide
example : parseCoords (some "(-71.05, 42.35)") = (.num (-7105) 2, .num 4235 2) := by decide
example : parseCoords (some "abc") = (.nan, .undef) := by decide
example : parseCoords none = buCoords := by decide
example : parseCoords (some "") = buCoords := by decide

/-! ## Rows and the in-memory event model -/

/-- The joined organizer display fields (`profiles:organizer_id (full_name,
email)`); either field may be null in the loosely-typed row. -/
structure Profile where
  full_name : Option String
  email : Option String
deriving DecidableEq, Repr

/-- A row of the `events` table (the `EventTable` interface of
`src/lib/eventService.ts`, and the realtime payload's row shape).  The food
offerings payload is carried opaquely as a list of names. -/
structure EventRow where
  id : String
  title : String
  location : String
  location_coordinates : Option String
  description : Option String
  start_time : String
  end_time : String
  organizer_id : String
  max_attendees : Option ℤ
  status : String
  is_public : Bool
  food_offerings : Option (List String)
deriving DecidableEq, Repr

/-- An `events` row as returned by `fetchPublicEvents`' select: the row plus
the joined organizer profile and the joined attendance rows
(`event_attendees!event_id (id)`, carried as the list of attendance-row
ids). -/
structure FetchedEventRecord where
  row : EventRow
  profiles : Option Profile
  event_attendees : Option (List String)
deriving DecidableEq, Repr

/-- The in-memory event shape (`DashboardEvent` of `src/types/event.ts`), as
produced by the two row transforms. -/
structure DashboardEvent where
  id : String
  title : String
  location : String
  time : String
  attendees : ℤ
  status : String
  coords : JSNum × JSNum
  description : String
  foodOfferings : List String
  organizerName : String
  organizerEmail : String
  maxAttendees : Option ℤ
  isPublic : Bool
deriving DecidableEq, Repr

/-- Models `Date.toLocaleTimeString`: an environment- and locale-dependent
rendering of a timestamp, never inspected by any claim; modelled as the raw
timestamp text. -/
def formatTime (d : String) : String := d

/-- The `` `${formatTime(start)} - ${formatTime(end)}` `` template used by
both row transforms. -/
def formatTimeRange (startTime endTime : String) : String :=
  formatTime startTime ++ " - " ++ formatTime endTime

/-- `transformEvents` (`src/lib/eventService.ts`): map each fetched record to
the in-memory shape.  The attendee count is the length of the joined
attendance array when it is an array, else `0`; the organizer fields fall
back to `""` when the join or its fields are null. -/
def transformEvents (records : List FetchedEventRecord) : List DashboardEvent :=
  records.map fun record =>
    { id := record.row.id
      title := record.row.title
      location := record.row.location
      time := formatTimeRange record.row.start_time record.row.end_time
      attendees := match record.event_attendees with
        | some l => (l.length : ℤ)
        | none => 0
      status := record.row.status
      coords := parseCoords record.row.location_coordinates
      description := record.row.description.getD ""
      foodOfferings := record.row.food_offerings.getD []
      organizerName := ((record.profiles.map Profile.full_name).join).getD ""
      organizerEmail := ((record.profiles.map Profile.email).join).getD ""
      maxAttendees := record.row.max_attendees
      isPublic := record.row.is_public }

/-- `transformEventRecord` (dashboard page): transform a bare realtime
payload row, which carries no joins, so the attendee count is hard-coded to
`0` and the organizer name to `"Loading..."`. -/
def transformEventRecord (record : EventRow) : DashboardEvent :=
  { id := record.id
    title := record.title
    location := record.location
    time := formatTimeRange record.start_time record.end_time
    attendees := 0
    status := record.status
    coords := parseCoords record.location_coordinates
    description := record.description.getD ""
    foodOfferings := record.food_offerings.getD []
    organizerName := "Loading..."
    organizerEmail := ""
    maxAttendees := record.max_attendees
    isPublic := record.is_public }

/-! ## Realtime change notifications -/

/-- A change notification delivered on the `public:events` channel.  The
DELETE payload exposes only the old row's identity (`payload.old.id`). -/
inductive EventsNotification where
  | insert (new : EventRow)
  | update (new : EventRow)
  | delete (oldId : String)
deriving DecidableEq, Repr

/-- The three `eventsNotification` handlers of the dashboard page, as
transforms of the in-memory list:

```js
INSERT: setEvents(prev => [...prev, transformEventRecord(payload.new)]);
UPDATE: setEvents(prev => prev.map(event =>
          event.id === payload.new.id ? transformEventRecord(payload.new) : event));
DELETE: setEvents(prev => prev.filter(event => event.id !== payload.old.id));
``` -/
def applyEventsNotification (n : EventsNotification) (events : List DashboardEvent) :
    List DashboardEvent :=
  match n with
  | .insert r => events ++ [transformEventRecord r]
  | .update r => events.map fun event =>
      if event.id = r.id then transformEventRecord r else event
  | .delete oldId => events.filter fun event => event.id ≠ oldId

/-! ## The remote store

The store itself is an external collaborator (§6 of the design): a relational
table service with a uniqueness constraint on the `(event_id, user_id)`
attendance pair (§3) that rejects duplicate inserts with constraint-violation
code `23505`, and whose row deletes simply remove every matching row (deleting
nothing is not an error).  It is modelled by explicit table state; remote
transport failures (`StoreError`) are outside this model. -/

/-- A row of the `event_attendees` table. -/
structure AttendanceRecord where
  event_id : String
  user_id : String
  rsvp_time : String
deriving DecidableEq, Repr

/-- A row of the `profiles` table (the fields the dashboard reads). -/
structure ProfileRow where
  id : String
  auth_id : String
  role : String
  full_name : Option String
  email : Option String
deriving DecidableEq, Repr

/-- The remote store's table state. -/
structure Store where
  events : List EventRow
  attendees : List AttendanceRecord
  profiles : List ProfileRow
deriving DecidableEq, Repr

/-- The store's insert on `event_attendees`: the uniqueness constraint on
`(event_id, user_id)` rejects a duplicate pair with error code `23505`;
otherwise the row is appended. -/
def insertAttendance (r : AttendanceRecord) (st : Store) : Except String Store :=
  if st.attendees.any (fun a => a.event_id = r.event_id ∧ a.user_id = r.user_id) then
    .error "23505"
  else
    .ok { st with attendees := st.attendees ++ [r] }

/-- JS truthiness of a nullable number: `null`/`undefined` and `0` are
falsy. -/
def intOptTruthy : Option ℤ → Bool
  | none => false
  | some m => m ≠ 0

/-- The client-side capacity guard of `rsvpToEvent`:
`eventData.max_attendees && currentAttendees >= eventData.max_attendees`. -/
def atCapacity (maxAttendees : Option ℤ) (currentAttendees : ℕ) : Bool :=
  intOptTruthy maxAttendees ∧ maxAttendees.getD 0 ≤ (currentAttendees : ℤ)

/-- `rsvpToEvent` (`src/lib/eventService.ts`): look up the event and its
current attendance; a missing event throws `"Event is full"`'s sibling
`"Event not found"`; a met capacity throws `"Event is full"` before any
write; otherwise insert the attendance record, translating the store's
`23505` uniqueness violation to `"You have already RSVP'd to this event"` and
any other insert failure to `"Failed to RSVP to event"`. -/
def rsvpToEvent (eventId userId : String) (rsvpTime : String) (st : Store) :
    Except String Store :=
  match st.events.find? (fun e => e.id = eventId) with
  | none => .error "Event not found"
  | some eventData =>
      let currentAttendees := (st.attendees.filter (fun a => a.event_id = eventId)).length
      if atCapacity eventData.max_attendees currentAttendees then
        .error "Event is full"
      else
        match insertAttendance ⟨eventId, userId, rsvpTime⟩ st with
        | .error code =>
            if code = "23505" then .error "You have already RSVP'd to this event"
            else .error "Failed to RSVP to event"
        | .ok st' => .ok st'

/-- `cancelRsvp` (`src/lib/eventService.ts`): delete every `event_attendees`
row matching the `(event_id, user_id)` pair.  The store's delete matches zero
or more rows and reports no error either way, so a missing record still
yields success. -/
def cancelRsvp (eventId userId : String) (st : Store) : Except String Store :=
  .ok { st with
         attendees := st.attendees.filter
           (fun a => ¬(a.event_id = eventId ∧ a.user_id = userId)) }

/-! ## The dashboard view-state controller -/

/-- A `react-hot-toast` notice: `toast.success`, `toast.error`, or the plain
`toast(...)` used for the non-fatal duplicate-RSVP notice. -/
inductive ToastKind where
  | success
  | error
  | note
deriving DecidableEq, Repr

structure Toast where
  kind : ToastKind
  message : String
deriving DecidableEq, Repr

/-- The controller state the RSVP flow touches: the in-memory event list and
the RSVP membership map (`userRsvps : Record<string, boolean>`, modelled as
the list of keys currently set to `true` — the code only ever sets a key to
`true` or deletes it). -/
structure ControllerState where
  events : List DashboardEvent
  userRsvps : List String
deriving DecidableEq, Repr

/-- `hasUserRsvpd`: `!!userRsvps[eventId]`. -/
def hasUserRsvpd (s : ControllerState) (eventId : String) : Bool :=
  s.userRsvps.contains eventId

/-- `setUserRsvps(prev => ({...prev, [eventId]: true}))`. -/
def setRsvpTrue (l : List String) (eventId : String) : List String :=
  if l.contains eventId then l else eventId :: l

/-- `delete newState[eventId]` on the membership map. -/
def deleteRsvpKey (l : List String) (eventId : String) : List String :=
  l.filter (fun k => k ≠ eventId)

/-- The outcome of one `handleToggleRsvp` call: the controller state and
store afterwards, the notices raised, and whether the handler navigated to
the sign-in page. -/
structure ToggleResult where
  state : ControllerState
  store : Store
  toasts : List Toast
  redirectedToLogin : Bool
deriving DecidableEq, Repr

/-- The `catch` block of `handleToggleRsvp`: dispatch on the thrown message.
`"Event is full"` and `"Event not found"` raise error notices and change
nothing; the duplicate-RSVP message forces the membership key to `true` and
raises a plain (non-error) notice; anything else raises a generic error. -/
def handleToggleError (s : ControllerState) (st : Store) (eventId msg : String) :
    ToggleResult :=
  if msg = "Event is full" then
    ⟨s, st, [⟨.error, "This event has reached its maximum capacity"⟩], false⟩
  else if msg = "Event not found" then
    ⟨s, st, [⟨.error, "This event no longer exists"⟩], false⟩
  else if msg = "You have already RSVP'd to this event" then
    ⟨⟨s.events, setRsvpTrue s.userRsvps eventId⟩, st,
      [⟨.note, "You're already on the attendee list for this event"⟩], false⟩
  else
    ⟨s, st, [⟨.error, "Failed to update RSVP: " ++ msg⟩], false⟩

/-- `handleToggleRsvp` (dashboard page).  With no resolved user it raises an
error notice and returns (no redirect).  An invalid event id likewise.  When
the user is already a member locally, it cancels: on success the key is
deleted and the event's count is decremented, clamped at zero.  Otherwise it
RSVPs: on success the count is incremented, the key set to `true`, and then a
second (duplicated) update decrements the count again, clamped at zero.
Failures go through `handleToggleError`. -/
def handleToggleRsvp (userId : Option String) (eventId : String) (rsvpTime : String)
    (s : ControllerState) (st : Store) : ToggleResult :=
  match userId with
  | none => ⟨s, st, [⟨.error, "You must be logged in to RSVP"⟩], false⟩
  | some uid =>
      if eventId = "" ∨ eventId = "NaN" then
        ⟨s, st, [⟨.error, "Invalid event ID. Please try again."⟩], false⟩
      else if hasUserRsvpd s eventId then
        match cancelRsvp eventId uid st with
        | .ok st' =>
            let rsvps' := deleteRsvpKey s.userRsvps eventId
            let events' := s.events.map fun event =>
              if event.id = eventId then
                { event with attendees := max 0 (event.attendees - 1) }
              else event
            ⟨⟨events', rsvps'⟩, st', [⟨.success, "Your RSVP has been canceled"⟩], false⟩
        | .error msg => handleToggleError s st eventId msg
      else
        match rsvpToEvent eventId uid rsvpTime st with
        | .ok st' =>
            let events₁ := s.events.map fun event =>
              if event.id = eventId then
                { event with attendees := event.attendees + 1 }
              else event
            let rsvps' := setRsvpTrue s.userRsvps eventId
            let events₂ := events₁.map fun event =>
              if event.id = eventId then
                { event with attendees := max 0 (event.attendees - 1) }
              else event
            ⟨⟨events₂, rsvps'⟩, st',
              [⟨.success, "You have successfully RSVP'd to this event!"⟩], false⟩
        | .error msg => handleToggleError s st eventId msg

/-! ## Mount: `fetchUserAndEvents` -/

/-- Insert an event row into a start-time-ordered list (ascending). -/
def insertByStart (e : EventRow) : List EventRow → List EventRow
  | [] => [e]
  | x :: xs =>
      if e.start_time ≤ x.start_time then e :: x :: xs else x :: insertByStart e xs

/-- `order("start_time", { ascending: true })`: sort rows by start time. -/
def sortByStartTime : List EventRow → List EventRow
  | [] => []
  | x :: xs => insertByStart x (sortByStartTime xs)

/-- `fetchPublicEvents` (`src/lib/eventService.ts`): all events flagged
public with status `"available"`, ordered by start time ascending, each
joined with the organizer profile and its attendance rows, then passed
through `transformEvents`. -/
def fetchPublicEvents (st : Store) : List DashboardEvent :=
  let rows := st.events.filter (fun e => e.is_public ∧ e.status = "available")
  transformEvents ((sortByStartTime rows).map fun e =>
    { row := e
      profiles := (st.profiles.find? (fun p => p.id = e.organizer_id)).map
        (fun p => ⟨p.full_name, p.email⟩)
      event_attendees := some
        ((st.attendees.filter (fun a => a.event_id = e.id)).map AttendanceRecord.user_id) })

/-- The authenticated session's user, as returned by the auth sub-interface
(`supabase.auth.getUser()`). -/
structure AuthUser where
  id : String
deriving DecidableEq, Repr

/-- What the mount effect leaves behind: the state set by
`fetchUserAndEvents` plus whether it navigated to `/login`. -/
structure MountResult where
  userRole : String
  userId : Option String
  events : List DashboardEvent
  userRsvps : List String
  redirectedToLogin : Bool
deriving DecidableEq, Repr

/-- `fetchUserAndEvents` (dashboard page mount effect).  With no
authenticated user it pushes `/login` and leaves the initial state (role
`"student"`, no user, empty lists).  With a user whose profile row is found,
it sets role and id, loads the public events, and builds the membership map
from the user's `event_attendees` rows; a missing profile row leaves the
initial state without redirecting. -/
def fetchUserAndEvents (authUser : Option AuthUser) (st : Store) : MountResult :=
  match authUser with
  | none =>
      { userRole := "student", userId := none, events := [], userRsvps := []
        redirectedToLogin := true }
  | some user =>
      match st.profiles.find? (fun p => p.auth_id = user.id) with
      | none =>
          { userRole := "student", userId := none, events := [], userRsvps := []
            redirectedToLogin := false }
      | some profile =>
          { userRole := profile.role
            userId := some profile.id
            events := fetchPublicEvents st
            userRsvps :=
              (st.attendees.filter (fun a => a.user_id = profile.id)).map
                AttendanceRecord.event_id
            redirectedToLogin := false }

/-! ## Event-creation form validation (`AddEventModal`) -/

/-- A building option from the location dropdown. -/
structure Building where
  id : String
  name : String
deriving DecidableEq, Repr

/-- A food offering entry of the form (the validation only reads the
name). -/
structure FoodOfferingForm where
  name : String
deriving DecidableEq, Repr

/-- The event form's data (`EventFormData`).  Dates are epoch-millisecond
values of the `Date` objects. -/
structure EventFormData where
  title : String
  startDateTime : ℤ
  endDateTime : ℤ
  location : Option Building
  foodOfferings : List FoodOfferingForm
  description : String
  organizerName : String
  organizerEmail : String
  organizerPhone : String
  maxAttendees : Option ℤ
  isPublic : Bool
deriving DecidableEq, Repr

/-- A JS `Date` object is always truthy — even an Invalid Date — so the
`!formData.startDateTime` / `!formData.endDateTime` guards in `validateForm`
can never fire on the typed form. -/
def dateFalsy (_d : ℤ) : Bool := false

/-- `s.trim()`, kernel-evaluable. -/
def jsTrim (s : String) : String :=
  String.mk (trimChars s.data)

/-- The email pattern `/^[^\s@]+@[^\s@]+\.[^\s@]+$/`: one or more
non-space-non-`@` characters on each side of a single `@`, with the domain
side containing a dot that has at least one character on each side. -/
def emailAtomOk (l : List Char) : Bool :=
  l ≠ [] ∧ l.all (fun c => ¬c.isWhitespace ∧ c ≠ '@')

def emailFormatOk (s : String) : Bool :=
  match splitOnChar '@' s.data with
  | [a, b] => emailAtomOk a ∧ emailAtomOk b ∧ ((b.drop 1).dropLast).contains '.'
  | _ => false

/-- The phone pattern `/^\+?[\d\s-()]+$/`. -/
def phoneCharOk (c : Char) : Bool :=
  c.isDigit ∨ c.isWhitespace ∨ c = '-' ∨ c = '(' ∨ c = ')'

def phoneFormatOk (s : String) : Bool :=
  match s.data with
  | '+' :: rest => rest ≠ [] ∧ rest.all phoneCharOk
  | l => l ≠ [] ∧ l.all phoneCharOk

/-- The `newErrors` record `validateForm` builds (`EventFormErrors`); a field
is `some message` exactly when the corresponding key is assigned. -/
structure EventFormErrors where
  title : Option String
  startDateTime : Option String
  endDateTime : Option String
  location : Option String
  organizerName : Option String
  organizerEmail : Option String
  organizerPhone : Option String
  foodOfferings : Option (List (Option String))
deriving DecidableEq, Repr

/-- `validateForm` (`AddEventModal`), check for check.  The two writes to
`newErrors.endDateTime` are sequential assignments, so the later
(`end < start`) overwrites the earlier (required) one when both fire; the
required guards on the dates are dead because `Date` objects are always
truthy.  The food-offering errors form a sparse array with an entry per
offering whose name is blank; the key is assigned when that array is
non-empty. -/
def validateForm (f : EventFormData) : EventFormErrors :=
  let foodErrors := f.foodOfferings.map fun offering =>
    if jsTrim offering.name = "" then some "Food item name is required" else none
  { title := if jsTrim f.title = "" then some "Event title is required" else none
    startDateTime :=
      if dateFalsy f.startDateTime then some "Start date and time is required" else none
    endDateTime :=
      if f.endDateTime < f.startDateTime then some "End time must be after start time"
      else if dateFalsy f.endDateTime then some "End date and time is required"
      else none
    location := if f.location.isNone then some "Location is required" else none
    organizerName :=
      if jsTrim f.organizerName = "" then some "Organizer name is required" else none
    organizerEmail :=
      if jsTrim f.organizerEmail = "" then some "Organizer email is required"
      else if ¬emailFormatOk f.organizerEmail then some "Invalid email format"
      else none
    organizerPhone :=
      if f.organizerPhone ≠ "" ∧ ¬phoneFormatOk f.organizerPhone then
        some "Invalid phone number format"
      else none
    foodOfferings := if foodErrors.any Option.isSome then some foodErrors else none }

/-- `Object.keys(newErrors).length === 0`: no key was assigned. -/
def formIsValid (e : EventFormErrors) : Bool :=
  e.title.isNone ∧ e.startDateTime.isNone ∧ e.endDateTime.isNone ∧ e.location.isNone ∧
    e.organizerName.isNone ∧ e.organizerEmail.isNone ∧ e.organizerPhone.isNone ∧
    e.foodOfferings.isNone

/-- The submit gate of `handleSubmit`: `onSubmit(formData)` is reached
exactly when `validateForm()` passed; `some` carries the submitted payload,
`none` means the form was rejected client-side without contacting the
store. -/
def handleSubmit (f : EventFormData) : Option EventFormData :=
  if formIsValid (validateForm f) then some f else none

/-! ## Concrete fixtures

Shared concrete instances used to instantiate the theorems below. -/

/-- An `events` row with capacity 5. -/
def fixRowCap5 : EventRow :=
  { id := "e1", title := "Free Pizza", location := "GSU"
    location_coordinates := some "(-71.05, 42.35)", description := some "leftovers"
    start_time := "2025-04-01T12:00", end_time := "2025-04-01T13:00"
    organizer_id := "org1", max_attendees := some 5, status := "available"
    is_public := true, food_offerings := some ["pizza"] }

/-- Five attendance records for event `"e1"`. -/
def fixAtt5 : List AttendanceRecord :=
  [⟨"e1", "u1", "t"⟩, ⟨"e1", "u2", "t"⟩, ⟨"e1", "u3", "t"⟩, ⟨"e1", "u4", "t"⟩,
    ⟨"e1", "u5", "t"⟩]

/-- Store state: event `"e1"` with capacity 5 and 5 attendees. -/
def fixStoreCap5 : Store := ⟨[fixRowCap5], fixAtt5, []⟩

/-- The in-memory view of `fixRowCap5` with 5 attendees. -/
def fixEvCap5 : DashboardEvent :=
  { id := "e1", title := "Free Pizza", location := "GSU"
    time := "2025-04-01T12:00 - 2025-04-01T13:00", attendees := 5
    status := "available", coords := (.num (-7105) 2, .num 4235 2)
    description := "leftovers", foodOfferings := ["pizza"], organizerName := "Org"
    organizerEmail := "org@bu.edu", maxAttendees := some 5, isPublic := true }

/-- An unrelated second in-memory event. -/
def fixEvOther : DashboardEvent :=
  { fixEvCap5 with id := "e2", title := "Bagels", attendees := 2, maxAttendees := none }

/-- Controller state: the full event in the list, membership map empty. -/
def fixStateCap5 : ControllerState := ⟨[fixEvCap5], []⟩

/-- The same event row without a capacity (`max_attendees` null). -/
def fixRowNoCap : EventRow := { fixRowCap5 with max_attendees := none }

/-- The same event row with `max_attendees = 0`. -/
def fixRowCap0 : EventRow := { fixRowCap5 with max_attendees := some 0 }

/-- Store state: capacity-0 event with 5 attendees. -/
def fixStoreCap0 : Store := ⟨[fixRowCap0], fixAtt5, []⟩

/-- In-memory event with no capacity and no attendees. -/
def fixEvZero : DashboardEvent :=
  { fixEvCap5 with attendees := 0, maxAttendees := none }

/-- Controller state for the unlimited-capacity round-trip scenario. -/
def fixState0 : ControllerState := ⟨[fixEvZero], []⟩

/-- Store state: the unlimited event with no attendance records. -/
def fixStore0 : Store := ⟨[fixRowNoCap], [], []⟩

/-- Store state: the unlimited event where `"u1"` already has an attendance
record (the other-tab race of the duplicate-RSVP scenario). -/
def fixStoreDup : Store := ⟨[fixRowNoCap], [⟨"e1", "u1", "t0"⟩], []⟩

/-- Controller state for the duplicate-RSVP scenario: the local membership
map does not yet know about the store-side record. -/
def fixStateDup : ControllerState :=
  ⟨[{ fixEvZero with attendees := 1 }], []⟩

/-- A valid event form whose end time is strictly after its start time. -/
def fixFormStrict : EventFormData :=
  { title := "Pizza night", startDateTime := 100, endDateTime := 200
    location := some ⟨"gsu", "GSU"⟩, foodOfferings := [⟨"Pizza"⟩], description := ""
    organizerName := "Ada", organizerEmail := "ada@bu.edu", organizerPhone := ""
    maxAttendees := none, isPublic := true }

/-- The same form with end time equal to start time. -/
def fixFormEq : EventFormData := { fixFormStrict with endDateTime := 100 }

/-! ## Helper lemmas -/

/-- Setting a membership key to `true` makes `hasUserRsvpd` see it. -/
theorem contains_setRsvpTrue (l : List String) (eventId : String) :
    (setRsvpTrue l eventId).contains eventId = true := by
  unfold setRsvpTrue
  by_cases h : l.contains eventId = true
  · rw [if_pos h]; exact h
  · rw [if_neg h]
    simp [List.contains_cons]

/-! ## Claims -/

/-- **C3.** For each of the three change-notification kinds on the events
table, the controller applies exactly the specified transform to the
in-memory list: an insert appends the normalized event, an update replaces
the event with matching id in place, and a delete removes the event with
matching id; after a deletion notification for event `x` is applied, no
event with id `x` remains in the list, and every other event survives. -/
theorem events_notification_applies_transforms
    (r : EventRow) (x : String) (l : List DashboardEvent) :
    applyEventsNotification (.insert r) l = l ++ [transformEventRecord r] ∧
    applyEventsNotification (.update r) l =
      l.map (fun e => if e.id = r.id then transformEventRecord r else e) ∧
    (∀ e ∈ applyEventsNotification (.delete x) l, e.id ≠ x) ∧
    (∀ e ∈ l, e.id ≠ x → e ∈ applyEventsNotification (.delete x) l) := by
  refine ⟨rfl, rfl, ?_, ?_⟩
  · intro e he
    simp only [applyEventsNotification, List.mem_filter, decide_eq_true_eq] at he
    exact he.2
  · intro e he hx
    simp only [applyEventsNotification, List.mem_filter, decide_eq_true_eq]
    exact ⟨he, hx⟩

/-- Witness for C3: a surviving event is still present after a delete
notification for a different event's id. -/
theorem events_notification_applies_transforms_witness :
    fixEvOther ∈ applyEventsNotification (.delete "e1") [fixEvCap5, fixEvOther] :=
  (events_notification_applies_transforms fixRowCap5 "e1"
      [fixEvCap5, fixEvOther]).2.2.2 fixEvOther (by decide) (by decide)

/-- **C8 counterexample.** An RSVP toggle with no resolved user identity
performs no store write and no local state change, but — contrary to the
claim — it does not redirect to the sign-in page: `redirectedToLogin` is
`false` at this concrete input. -/
theorem toggle_unauthenticated_counterexample :
    (handleToggleRsvp none "e1" "t" fixState0 fixStore0).state = fixState0 ∧
    (handleToggleRsvp none "e1" "t" fixState0 fixStore0).store = fixStore0 ∧
    (handleToggleRsvp none "e1" "t" fixState0 fixStore0).redirectedToLogin = false := by
  exact ⟨rfl, rfl, rfl⟩

/-- **C8 (amended).** An RSVP toggle with no resolved user identity performs
no store write and no local state change and raises an error notice, without
redirecting; the redirect to sign-in happens on mount, when
`fetchUserAndEvents` resolves no authenticated user. -/
theorem auth_required_amended (eventId rsvpTime : String) (s : ControllerState)
    (st : Store) :
    handleToggleRsvp none eventId rsvpTime s st =
      ⟨s, st, [⟨.error, "You must be logged in to RSVP"⟩], false⟩ ∧
    (fetchUserAndEvents none st).redirectedToLogin = true := by
  exact ⟨rfl, rfl⟩

/-- **C9.** For every event whose `max_attendees` is `0`, the capacity guard
of `rsvpToEvent` tests truthiness of `max_attendees`, so the
`CapacityExceeded` branch is unreachable, and the attendance record is
inserted regardless of how many attendance records the event already has. -/
theorem zero_capacity_skips_check (eventId userId rsvpTime : String) (st : Store)
    (row : EventRow)
    (hfind : st.events.find? (fun e => e.id = eventId) = some row)
    (hcap : row.max_attendees = some 0)
    (hnew : st.attendees.any
      (fun a => a.event_id = eventId ∧ a.user_id = userId) = false) :
    rsvpToEvent eventId userId rsvpTime st =
      .ok { st with attendees := st.attendees ++ [⟨eventId, userId, rsvpTime⟩] } ∧
    rsvpToEvent eventId userId rsvpTime st ≠ .error "Event is full" := by
  have hguard : atCapacity row.max_attendees
      ((st.attendees.filter (fun a => a.event_id = eventId)).length) = false := by
    simp [atCapacity, intOptTruthy, hcap]
  have hres : rsvpToEvent eventId userId rsvpTime st =
      .ok { st with attendees := st.attendees ++ [⟨eventId, userId, rsvpTime⟩] } := by
    rw [rsvpToEvent, hfind]
    simp only [hguard, Bool.false_eq_true, if_false, insertAttendance, hnew]
  exact ⟨hres, by rw [hres]; exact fun h => Except.noConfusion h⟩

/-- Witness for C9: the capacity-0 event with five existing attendees still
accepts a sixth RSVP. -/
theorem zero_capacity_skips_check_witness :
    rsvpToEvent "e1" "u6" "t6" fixStoreCap0 =
      .ok { fixStoreCap0 with
              attendees := fixStoreCap0.attendees ++ [⟨"e1", "u6", "t6"⟩] } ∧
    rsvpToEvent "e1" "u6" "t6" fixStoreCap0 ≠ .error "Event is full" :=
  zero_capacity_skips_check "e1" "u6" "t6" fixStoreCap0 fixRowCap0 (by decide)
    (by decide) (by decide)

/-- **C10.** The event object the controller builds from an INSERT or UPDATE
notification payload has `attendees = 0` and `organizerName = "Loading..."`
regardless of the stored attendance records, so an UPDATE notification for
event `r.id` replaces the in-memory event and resets its displayed attendee
count to zero whatever its previous value was. -/
theorem realtime_payload_resets_attendee_count (r : EventRow)
    (l : List DashboardEvent) :
    (transformEventRecord r).attendees = 0 ∧
    (transformEventRecord r).organizerName = "Loading..." ∧
    (∀ e ∈ applyEventsNotification (.update r) l,
      e.id = r.id → e = transformEventRecord r) ∧
    (∀ e ∈ applyEventsNotification (.update r) l, e.id = r.id → e.attendees = 0) := by
  have hrepl : ∀ e ∈ applyEventsNotification (.update r) l,
      e.id = r.id → e = transformEventRecord r := by
    intro e he hid
    simp only [applyEventsNotification, List.mem_map] at he
    obtain ⟨a, _, ha⟩ := he
    by_cases h : a.id = r.id
    · simpa [h] using ha.symm
    · rw [if_neg h] at ha
      rw [← ha] at hid
      exact absurd hid h
  refine ⟨rfl, rfl, hrepl, ?_⟩
  intro e he hid
  rw [hrepl e he hid]
  rfl

/-- Witness for C10: the concrete UPDATE payload replaces the event showing 5
attendees with one showing 0. -/
theorem realtime_payload_resets_attendee_count_witness :
    (transformEventRecord fixRowCap5).attendees = 0 ∧
    transformEventRecord fixRowCap5 ∈
      applyEventsNotification (.update fixRowCap5) [fixEvCap5] :=
  ⟨(realtime_payload_resets_attendee_count fixRowCap5 [fixEvCap5]).1, by decide⟩

/-- **C1.** For every event with a set (positive) capacity whose attendance
count is at or above that capacity, RSVP'ing fails with `"Event is full"`
without inserting an attendance record, and `handleToggleRsvp` (for a user
whose local membership is false) leaves the event list, the membership map
and the store unchanged, raising only the capacity error notice. -/
theorem rsvp_at_capacity_leaves_state_unchanged
    (eventId userId rsvpTime : String) (s : ControllerState) (st : Store)
    (row : EventRow) (cap : ℤ)
    (hfind : st.events.find? (fun e => e.id = eventId) = some row)
    (hcap : row.max_attendees = some cap) (hpos : 0 < cap)
    (hfull : cap ≤ ((st.attendees.filter (fun a => a.event_id = eventId)).length : ℤ))
    (hnotr : hasUserRsvpd s eventId = false)
    (hid : ¬(eventId = "" ∨ eventId = "NaN")) :
    rsvpToEvent eventId userId rsvpTime st = .error "Event is full" ∧
    handleToggleRsvp (some userId) eventId rsvpTime s st =
      ⟨s, st, [⟨.error, "This event has reached its maximum capacity"⟩], false⟩ := by
  have hguard : atCapacity row.max_attendees
      ((st.attendees.filter (fun a => a.event_id = eventId)).length) = true := by
    simp only [atCapacity, intOptTruthy, hcap, Option.getD_some, decide_eq_true_eq]
    exact ⟨by simpa using hpos.ne', hfull⟩
  have h1 : rsvpToEvent eventId userId rsvpTime st = .error "Event is full" := by
    rw [rsvpToEvent, hfind]
    simp only [hguard, if_true]
  refine ⟨h1, ?_⟩
  simp only [handleToggleRsvp, if_neg hid, hnotr, Bool.false_eq_true, if_false, h1,
    handleToggleError, if_pos rfl]
  exact if_pos trivial

/-- Witness for C1: event with capacity 5, five current attendees, user not
yet RSVP'd — the toggle reports capacity and changes nothing. -/
theorem rsvp_at_capacity_leaves_state_unchanged_witness :
    rsvpToEvent "e1" "u6" "t6" fixStoreCap5 = .error "Event is full" ∧
    handleToggleRsvp (some "u6") "e1" "t6" fixStateCap5 fixStoreCap5 =
      ⟨fixStateCap5, fixStoreCap5,
        [⟨.error, "This event has reached its maximum capacity"⟩], false⟩ :=
  rsvp_at_capacity_leaves_state_unchanged "e1" "u6" "t6" fixStateCap5 fixStoreCap5
    fixRowCap5 5 (by decide) (by decide) (by decide) (by decide) (by decide)
    (by decide)

/-- **C4.** When the store's attendance insert hits the uniqueness
constraint (code 23505), `rsvpToEvent` translates it to the message
`"You have already RSVP'd to this event"`, and `handleToggleRsvp` treats
that outcome as non-fatal: it forces the local membership key to `true` and
raises a plain (non-error) notice, leaving events and store untouched. -/
theorem duplicate_rsvp_translated_to_already_rsvpd
    (eventId userId rsvpTime : String) (s : ControllerState) (st : Store)
    (row : EventRow)
    (hfind : st.events.find? (fun e => e.id = eventId) = some row)
    (hnotfull : atCapacity row.max_attendees
      ((st.attendees.filter (fun a => a.event_id = eventId)).length) = false)
    (hdup : st.attendees.any
      (fun a => a.event_id = eventId ∧ a.user_id = userId) = true)
    (hnotr : hasUserRsvpd s eventId = false)
    (hid : ¬(eventId = "" ∨ eventId = "NaN")) :
    rsvpToEvent eventId userId rsvpTime st =
      .error "You have already RSVP'd to this event" ∧
    handleToggleRsvp (some userId) eventId rsvpTime s st =
      ⟨⟨s.events, setRsvpTrue s.userRsvps eventId⟩, st,
        [⟨.note, "You're already on the attendee list for this event"⟩], false⟩ ∧
    hasUserRsvpd (handleToggleRsvp (some userId) eventId rsvpTime s st).state
      eventId = true := by
  have h1 : rsvpToEvent eventId userId rsvpTime st =
      .error "You have already RSVP'd to this event" := by
    rw [rsvpToEvent, hfind]
    simp only [hnotfull, Bool.false_eq_true, if_false, insertAttendance, hdup,
      if_true, if_pos rfl]
  have h2 : handleToggleRsvp (some userId) eventId rsvpTime s st =
      ⟨⟨s.events, setRsvpTrue s.userRsvps eventId⟩, st,
        [⟨.note, "You're already on the attendee list for this event"⟩], false⟩ := by
    simp only [handleToggleRsvp, if_neg hid, hnotr, Bool.false_eq_true, if_false, h1,
      handleToggleError]
    rw [if_neg (by decide), if_neg (by decide)]
    exact if_pos trivial
  refine ⟨h1, h2, ?_⟩
  rw [h2]
  exact contains_setRsvpTrue s.userRsvps eventId

/-- Witness for C4: another tab already inserted `("e1","u1")`; the local
toggle for `"u1"` ends with membership forced to `true` and a plain
notice. -/
theorem duplicate_rsvp_translated_to_already_rsvpd_witness :
    rsvpToEvent "e1" "u1" "t1" fixStoreDup =
      .error "You have already RSVP'd to this event" ∧
    handleToggleRsvp (some "u1") "e1" "t1" fixStateDup fixStoreDup =
      ⟨⟨fixStateDup.events, setRsvpTrue fixStateDup.userRsvps "e1"⟩, fixStoreDup,
        [⟨.note, "You're already on the attendee list for this event"⟩], false⟩ ∧
    hasUserRsvpd (handleToggleRsvp (some "u1") "e1" "t1" fixStateDup fixStoreDup).state
      "e1" = true :=
  duplicate_rsvp_translated_to_already_rsvpd "e1" "u1" "t1" fixStateDup fixStoreDup
    fixRowNoCap (by decide) (by decide) (by decide) (by decide) (by decide)

/-- **C7.** `cancelRsvp` for a pair with no existing attendance record
reports success with no side effects, and calling it twice in a row reports
success both times: deleting a non-existent record is never an error. -/
theorem cancel_rsvp_idempotent_no_record (eventId userId : String) (st : Store)
    (h : ∀ a ∈ st.attendees, ¬(a.event_id = eventId ∧ a.user_id = userId)) :
    cancelRsvp eventId userId st = .ok st ∧
    (cancelRsvp eventId userId st).bind (cancelRsvp eventId userId) = .ok st := by
  have hfilter : st.attendees.filter
      (fun a => ¬(a.event_id = eventId ∧ a.user_id = userId)) = st.attendees := by
    apply List.filter_eq_self.mpr
    intro a ha
    exact decide_eq_true (h a ha)
  have h1 : cancelRsvp eventId userId st = .ok st := by
    unfold cancelRsvp
    rw [hfilter]
  refine ⟨h1, ?_⟩
  rw [h1]
  simpa [Except.bind] using h1

/-- Witness for C7: user `"u9"` has no record in a store holding only an
unrelated record; the cancel succeeds twice without touching the store. -/
theorem cancel_rsvp_idempotent_no_record_witness :
    cancelRsvp "e1" "u9" fixStoreDup = .ok fixStoreDup ∧
    (cancelRsvp "e1" "u9" fixStoreDup).bind (cancelRsvp "e1" "u9") =
      .ok fixStoreDup :=
  cancel_rsvp_idempotent_no_record "e1" "u9" fixStoreDup (by decide)

/-- Result of the first toggle (RSVP) of the C2 round-trip scenario: event
with no capacity, zero attendees, membership false. -/
def fixToggle1 : ToggleResult :=
  handleToggleRsvp (some "u1") "e1" "t1" fixState0 fixStore0

/-- Result of the second toggle (cancel) of the C2 round-trip scenario. -/
def fixToggle2 : ToggleResult :=
  handleToggleRsvp (some "u1") "e1" "t2" fixToggle1.state fixToggle1.store

/-- **C2 (code bug).** On the unlimited-capacity round-trip scenario the
code diverges from the specified `0 → 1 → 0` attendee counts: the successful
RSVP toggle increments the count and then a duplicated update immediately
decrements it again, so the count stays `0` after the RSVP (and stays `0`
after the cancel); membership does go `false → true → false`, the store
gains and then loses the record, and the clamp keeps the count
non-negative. -/
theorem rsvp_toggle_net_zero_attendees :
    fixToggle1.state.events.map DashboardEvent.attendees = [0] ∧
    fixToggle1.state.events.map DashboardEvent.attendees ≠ [1] ∧
    hasUserRsvpd fixToggle1.state "e1" = true ∧
    fixToggle1.store.attendees = [⟨"e1", "u1", "t1"⟩] ∧
    fixToggle1.toasts =
      [⟨.success, "You have successfully RSVP'd to this event!"⟩] ∧
    fixToggle2.state.events.map DashboardEvent.attendees = [0] ∧
    hasUserRsvpd fixToggle2.state "e1" = false ∧
    fixToggle2.store.attendees = [] := by
  decide

/-- **C5 counterexample.** A malformed, non-empty coordinate string does not
fall back to the default campus coordinate: `"abc"` parses to
`(NaN, undefined)`, which differs from the default. -/
theorem coord_parse_malformed_counterexample :
    parseCoords (some "abc") = (.nan, .undef) ∧
    parseCoords (some "abc") ≠ buCoords := by
  decide

/-- **C5 (amended).** Parsing is total (never throws).  A well-formed
`"(lng,lat)"` string — one whose paren-stripped text splits on the comma
into exactly two pieces that `Number` converts to numeric values — yields
exactly the encoded pair; absent (`null`) or empty input yields the fixed
default campus coordinate.  (A malformed non-empty string yields
`NaN`/`undefined` components instead of the default: see the
counterexample.) -/
theorem coord_parse_amended (s : String) (p q : List Char) (m₁ m₂ : ℤ) (e₁ e₂ : ℕ)
    (hs : s ≠ "")
    (hsplit : splitOnChar ',' (stripParens s.data) = [p, q])
    (hlng : jsNumberChars p = .num m₁ e₁) (hlat : jsNumberChars q = .num m₂ e₂) :
    parseCoords (some s) = (.num m₁ e₁, .num m₂ e₂) ∧
    parseCoords none = buCoords ∧
    parseCoords (some "") = buCoords := by
  refine ⟨?_, rfl, rfl⟩
  simp only [parseCoords, if_neg hs, hsplit, List.head?, List.get?, hlng, hlat]

/-- Witness for C5: the well-formed string written by the event serializer
round-trips to its two numeric components. -/
theorem coord_parse_amended_witness :
    parseCoords (some "(-71.05, 42.35)") = (.num (-7105) 2, .num 4235 2) :=
  (coord_parse_amended "(-71.05, 42.35)" "-71.05".data " 42.35".data (-7105) 4235 2 2
    (by decide) (by decide) (by decide) (by decide)).1

/-- **C6 counterexample.** A form whose end time equals its start time — so
the end is *not strictly after* the start — passes validation and is
submitted: the code only rejects `end < start`. -/
theorem validate_equal_times_counterexample :
    fixFormEq.endDateTime = fixFormEq.startDateTime ∧
    formIsValid (validateForm fixFormEq) = true ∧
    handleSubmit fixFormEq = some fixFormEq := by
  decide

/-- **C6 (amended).** Client-side validation rejects (without contacting the
store) any form whose end time is strictly *before* its start time — end
equal to start passes the time check — or whose organizer name or organizer
email is blank; `onSubmit` receives the form exactly when every check
passes. -/
theorem validate_form_amended (f : EventFormData) :
    (f.endDateTime < f.startDateTime → formIsValid (validateForm f) = false) ∧
    (jsTrim f.organizerName = "" → formIsValid (validateForm f) = false) ∧
    (jsTrim f.organizerEmail = "" → formIsValid (validateForm f) = false) ∧
    (handleSubmit f = some f ↔ formIsValid (validateForm f) = true) ∧
    (∀ g, handleSubmit f = some g →
      ¬(f.endDateTime < f.startDateTime) ∧
        jsTrim f.organizerName ≠ "" ∧ jsTrim f.organizerEmail ≠ "") := by
  have h1 : f.endDateTime < f.startDateTime → formIsValid (validateForm f) = false := by
    intro hlt
    simp [formIsValid, validateForm, hlt]
  have h2 : jsTrim f.organizerName = "" → formIsValid (validateForm f) = false := by
    intro hn
    simp [formIsValid, validateForm, hn]
  have h3 : jsTrim f.organizerEmail = "" → formIsValid (validateForm f) = false := by
    intro he
    simp [formIsValid, validateForm, he]
  have h4 : handleSubmit f = some f ↔ formIsValid (validateForm f) = true := by
    unfold handleSubmit
    by_cases hv : formIsValid (validateForm f) = true
    · simp [hv]
    · simp [hv]
  refine ⟨h1, h2, h3, h4, ?_⟩
  intro g hg
  have hv : formIsValid (validateForm f) = true := by
    by_contra hnv
    rw [handleSubmit, if_neg hnv] at hg
    exact Option.noConfusion hg
  refine ⟨fun hlt => ?_, fun hn => ?_, fun he => ?_⟩
  · rw [h1 hlt] at hv; exact Bool.noConfusion hv
  · rw [h2 hn] at hv; exact Bool.noConfusion hv
  · rw [h3 he] at hv; exact Bool.noConfusion hv

/-- Witness for C6: a fully valid form with end strictly after start is
submitted. -/
theorem validate_form_amended_witness :
    handleSubmit fixFormStrict = some fixFormStrict :=
  (validate_form_amended fixFormStrict).2.2.2.1.mpr (by decide)

end SparkBytes
